import Mathlib

/-!
Verification development for the omapfolder-server event controller
(src/controllers/events.js) and its mongoose models.

The JavaScript controller code is embedded shallowly:
* request-handler control flow becomes total Lean functions returning a
  status plus the updated store;
* MongoDB documents become Lean structures; ObjectIDs are modelled as
  naturals, and the JavaScript distinction between an ObjectID object and
  its string form (which matters, because `===`/`Array.includes` never
  equate the two) is modelled by the two-constructor type `RefVal`;
* mongoose population is modelled by "view" structures that carry the
  selected user fields inline.
-/

namespace OMap

/-- User roles, from the user model (`role` enum) plus the synthetic
`anonymous` role given to unauthenticated requests by the auth layer. -/
inductive Role where
  | admin
  | standard
  | guest
  | anonymous
deriving DecidableEq

/-- Runner visibility levels, from the oevent model enum
(`public | all | club | private`; the JS names are Lean keywords). -/
inductive Vis where
  | vPublic
  | vAll
  | vClub
  | vPrivate
deriving DecidableEq

/-- A JavaScript id value: either a raw Mongo ObjectID or its string form.
`===`/`Array.includes` never equate an ObjectID object with a string, which
structural equality of the two constructors reproduces. -/
inductive RefVal where
  | oid : Nat → RefVal
  | str : Nat → RefVal
deriving DecidableEq

/-- `.toString()` on an id value (ObjectID.toString yields the string form). -/
def RefVal.toStr : RefVal → RefVal
  | .oid n => .str n
  | .str n => .str n

/-- Casting an id value back to an ObjectID, as mongoose does when it casts
query values (e.g. inside `$in`) against an ObjectId schema path. -/
def RefVal.castId : RefVal → Nat
  | .oid n => n
  | .str n => n

/-- What `.toString()` yields for a `memberOf` entry, depending on how the
path fetched it: a raw ObjectID (getEventList populates `runners.user` with
select `'_id displayName memberOf'`, leaving `memberOf` unpopulated)
stringifies to the bare hex id, `idStr`; a deep-populated club DOCUMENT
(getEvent and addEventRunner nest `populate: {path: 'memberOf', select:
'_id shortName'}`) stringifies to a util.inspect dump of the whole
sub-document, `docStr`, which is never equal to a bare id string. -/
inductive MemberStr where
  | idStr : Nat → MemberStr
  | docStr : Nat → MemberStr
deriving DecidableEq

/-- The authenticated requester attached to a request (`req.user`),
reduced to the fields the controller reads. -/
structure Viewer where
  role : Role
  id : Nat
  clubs : List Nat
deriving DecidableEq

/-- `requestorId`: `null` for the anonymous role, else `req.user._id.toString()`
(getEventList lines 961-963, getEvent lines 1102-1104). -/
def requestorId (v : Viewer) : Option Nat :=
  if v.role = Role.anonymous then none else some v.id

/-- `requestorClubs`: `null` for the anonymous role, else
`req.user.memberOf.map(club => club._id.toString())` — bare hex id strings
(getEventList lines 964-966, getEvent lines 1105-1107). -/
def requestorClubs (v : Viewer) : Option (List MemberStr) :=
  if v.role = Role.anonymous then none else some (v.clubs.map MemberStr.idStr)

/-- A populated `runners.user` sub-document as the read paths see it. -/
structure UserView where
  id : Nat
  displayName : String
  memberOf : List Nat
deriving DecidableEq

/-- A map record inside a runner entry (title plus image references). -/
structure MapView where
  title : String
  course : Option String
  route : Option String
  overlay : Option String
  isGeocoded : Bool
deriving DecidableEq

/-- A populated runner entry as returned by `Event.findOne().populate(...)`. -/
structure RunnerView where
  user : UserView
  visibility : Vis
  courseTitle : Option String
  courseLength : Option String
  courseClimb : Option String
  courseControls : Option String
  time : Option String
  place : Option String
  timeBehind : Option String
  fieldSize : Option String
  distanceRun : Option String
  tags : List String
  maps : List MapView
  comments : List String
deriving DecidableEq

/-- `requestorClubs.includes(clubId.toString())`; the `none` branch is
unreachable in the code (it is only evaluated under the standard/guest
guard, where `requestorClubs` is non-null). -/
def optClubsInclude (o : Option (List MemberStr)) (m : MemberStr) : Bool :=
  match o with
  | some l => l.contains m
  | none => false

/-- The per-runner visibility decision of the event detail path, transcribed
from getEvent lines 1134-1151: `canSee` starts false and each `if` may set it,
so the result is the disjunction of the tested clauses. In THIS path
`runner.user.memberOf` was deep-populated into club documents (lines
1117-1121), so `clubId.toString()` at lines 1142-1143 is the inspect dump of
a document — `MemberStr.docStr` — never a bare id string (and had the nested
populate not fetched the field, the `.filter` would throw into the 400
catch: the clause cannot grant either way). -/
def canSeeDetail (role : Role) (reqId : Option Nat) (reqClubs : Option (List MemberStr))
    (runner : RunnerView) : Bool :=
  (role = Role.admin)
  || (runner.visibility = Vis.vPublic)
  || ((role = Role.standard || role = Role.guest)
      && ((runner.visibility = Vis.vAll)
          || (reqId = some runner.user.id)
          || ((runner.visibility = Vis.vClub)
              && ((runner.user.memberOf.filter
                    (fun clubId => optClubsInclude reqClubs (MemberStr.docStr clubId))).length > 0))))

/-- The per-runner visibility decision of the listing path, transcribed
separately from getEventList lines 1032-1045 (the two sites are textual
duplicates in the source, but operate on differently populated data): here
`runner.user.memberOf` holds RAW ObjectIDs (the populate at line 1007
selects `memberOf` without nesting), so `clubId.toString()` is the bare hex
id — `MemberStr.idStr`. -/
def canSeeList (role : Role) (reqId : Option Nat) (reqClubs : Option (List MemberStr))
    (runner : RunnerView) : Bool :=
  (role = Role.admin)
  || (runner.visibility = Vis.vPublic)
  || ((role = Role.standard || role = Role.guest)
      && ((runner.visibility = Vis.vAll)
          || (reqId = some runner.user.id)
          || ((runner.visibility = Vis.vClub)
              && ((runner.user.memberOf.filter
                    (fun clubId => optClubsInclude reqClubs (MemberStr.idStr clubId))).length > 0))))

/-- Detail-path membership test with the viewer's derived identity. -/
def canSeeDetailV (v : Viewer) (r : RunnerView) : Bool :=
  canSeeDetail v.role (requestorId v) (requestorClubs v) r

/-- Listing-path membership test with the viewer's derived identity. -/
def canSeeListV (v : Viewer) (r : RunnerView) : Bool :=
  canSeeList v.role (requestorId v) (requestorClubs v) r

/-- getEvent lines 1133-1153: when runners are present, map each to itself or
`false` and keep the truthy ones; otherwise the (empty) list is untouched. -/
def filterRunnersDetail (v : Viewer) (runners : List RunnerView) : List RunnerView :=
  if runners.length > 0 then
    (runners.map (fun r => if canSeeDetailV v r then some r else none)).filterMap id
  else runners

/-- The reduced runner summary emitted by the listing path
(getEventList lines 1047-1052). `courseTitle` reads `runner.user.courseTitle`,
a field the populated user document does not carry, hence always undefined. -/
structure RunnerSummary where
  user : Nat
  displayName : String
  courseTitle : Option String
  numberMaps : Nat
deriving DecidableEq

/-- Build the listing summary of one visible runner (getEventList 1047-1052). -/
def runnerSummary (r : RunnerView) : RunnerSummary :=
  { user := r.user.id
    displayName := r.user.displayName
    courseTitle := none
    numberMaps := r.maps.length }

/-- getEventList lines 1031-1056: map runners to summaries or `false`, keep
the truthy ones. -/
def selectedRunnersList (v : Viewer) (runners : List RunnerView) : List RunnerSummary :=
  (runners.map (fun r => if canSeeListV v r then some (runnerSummary r) else none)).filterMap id

/-- The viewer's club-id set as the spec's rule table reads it: empty for an
anonymous viewer (who has no identity or club set), else the club ids. -/
def specViewerClubs (v : Viewer) : List Nat :=
  if v.role = Role.anonymous then [] else v.clubs

/-- The visibility rule table as worded in spec §4.2 (the spec-side definition
for the refinement comparison): any clause grants visibility; an anonymous
viewer has no identity and no club set. -/
def specVisible (v : Viewer) (r : RunnerView) : Prop :=
  v.role = Role.admin
  ∨ r.visibility = Vis.vPublic
  ∨ (v.role ≠ Role.anonymous ∧ r.visibility = Vis.vAll)
  ∨ requestorId v = some r.user.id
  ∨ (r.visibility = Vis.vClub
      ∧ ∃ c, c ∈ specViewerClubs v ∧ c ∈ r.user.memberOf)

instance (v : Viewer) (r : RunnerView) : Decidable (specVisible v r) := by
  unfold specVisible
  infer_instance

/-- A populated event document as the read paths receive it from
`Event.findOne(...).populate(...)` (oevent model fields the controller emits;
organisedBy/linkedTo reduced to their ids). -/
@[ext] structure PopEvent where
  id : Nat
  owner : Nat
  orisId : Option String
  date : String
  name : String
  mapName : Option String
  locPlace : Option String
  locCountry : Option String
  locLat : Option ℚ
  locLong : Option ℚ
  locCornerSW : List ℚ
  locCornerNE : List ℚ
  organisedBy : List Nat
  linkedTo : List Nat
  types : List String
  tags : List String
  website : Option String
  results : Option String
  runners : List RunnerView
deriving DecidableEq

/-- getEvent lines 1132-1155: the response is the found event with its runner
list filtered for the viewer (all other fields passed through). -/
def getEventDetailResponse (v : Viewer) (e : PopEvent) : PopEvent :=
  { e with runners := filterRunnersDetail v e.runners }

/-- The per-event summary emitted by getEventList (lines 1012-1058).
`runners` is only attached when the stored event has at least one runner
entry (visible or not); `totalRunners` is taken from the unfiltered list. -/
structure EventListSummary where
  id : Nat
  orisId : Option String
  date : String
  name : String
  mapName : Option String
  locPlace : Option String
  locCountry : Option String
  locLat : Option ℚ
  locLong : Option ℚ
  locCornerSW : List ℚ
  locCornerNE : List ℚ
  organisedBy : List Nat
  linkedTo : List Nat
  totalRunners : Nat
  types : List String
  tags : List String
  runners : Option (List RunnerSummary)
deriving DecidableEq

/-- Build one event's listing summary (getEventList lines 1011-1058).
`foundEvent.runners.length || 0` equals the length. -/
def getEventListSummary (v : Viewer) (e : PopEvent) : EventListSummary :=
  { id := e.id
    orisId := e.orisId
    date := e.date
    name := e.name
    mapName := e.mapName
    locPlace := e.locPlace
    locCountry := e.locCountry
    locLat := e.locLat
    locLong := e.locLong
    locCornerSW := e.locCornerSW
    locCornerNE := e.locCornerNE
    organisedBy := e.organisedBy
    linkedTo := e.linkedTo
    totalRunners := e.runners.length
    types := e.types
    tags := e.tags
    runners := if e.runners.length > 0 then some (selectedRunnersList v e.runners) else none }

/-- Two stored events differ only in runners invisible to the viewer — i.e.
runners failing every §4.2 clause: all non-runner fields agree and the
subsequences of rule-table-visible runners agree. The listing test
implements the table exactly, and the detail test only ever hides more (its
club clause is dead), so such runners are dropped by both read paths. -/
def differOnlyInvisible (v : Viewer) (e1 e2 : PopEvent) : Prop :=
  { e1 with runners := [] } = { e2 with runners := [] }
  ∧ e1.runners.filter (canSeeListV v) = e2.runners.filter (canSeeListV v)

instance (v : Viewer) (e1 e2 : PopEvent) : Decidable (differOnlyInvisible v e1 e2) := by
  unfold differOnlyInvisible
  infer_instance

/-! ## Store-level documents and mutation operations -/

/-- HTTP status of a controller response. -/
inductive Status where
  | ok200
  | bad400
  | auth401
  | notFound404
deriving DecidableEq

/-- One row of a runner's `fullResults` (oevent model). -/
structure ResultRow where
  place : Option String
  sort : Option String
  name : Option String
  regNumber : Option String
  clubShort : Option String
  club : Option String
  time : Option String
  loss : Option String
deriving DecidableEq

/-- A stored map record (oevent model `runners.maps`). -/
structure MapDoc where
  title : String
  course : Option String
  route : Option String
  overlay : Option String
  isGeocoded : Bool
deriving DecidableEq

/-- A stored comment (oevent model `runners.comments`). -/
structure CommentDoc where
  author : Nat
  text : String
deriving DecidableEq

/-- A stored runner sub-document (oevent model `runners`). The schema marks
`user` required, but update operations bypass validators, so a stored entry
can lack it; `Option` records that possibility. -/
structure RunnerDoc where
  user : Option Nat
  visibility : Vis
  courseTitle : Option String
  courseLength : Option String
  courseClimb : Option String
  courseControls : Option String
  fullResults : List ResultRow
  time : Option String
  place : Option String
  timeBehind : Option String
  fieldSize : Option String
  distanceRun : Option String
  tags : List String
  maps : List MapDoc
  comments : List CommentDoc
deriving DecidableEq

/-- A stored event document (oevent model). -/
structure EventDoc where
  id : Nat
  owner : Nat
  date : String
  name : String
  orisId : Option String
  mapName : Option String
  locPlace : Option String
  locCountry : Option String
  website : Option String
  results : Option String
  locRegions : List String
  types : List String
  tags : List String
  locLat : Option ℚ
  locLong : Option ℚ
  organisedBy : List Nat
  linkedTo : List Nat
  runners : List RunnerDoc
  active : Bool
deriving DecidableEq

/-- A stored LinkedEvent document (linkedEvent model). -/
structure LinkDoc where
  id : Nat
  displayName : String
  includes : List Nat
deriving DecidableEq

/-- The persisted collections the controller touches. -/
structure Store where
  events : List EventDoc
  links : List LinkDoc
  clubs : List Nat
  users : List Nat
deriving DecidableEq

/-- `Event.findById`. -/
def findEvent (st : Store) (eid : Nat) : Option EventDoc :=
  st.events.find? (fun e => e.id == eid)

/-- `Event.findByIdAndUpdate`: replace the document with the given id. -/
def replaceEvent (st : Store) (eid : Nat) (e : EventDoc) : Store :=
  { st with events := st.events.map (fun x => if x.id == eid then e else x) }

/-! ### The date-format test

`createEvent` (line 41) and `updateEvent` (line 1179) run
`date.match(/[1|2][0-9]{3}-((0[13578]|1[02])-(0[1-9]|[12][0-9]|3[01])|(0[469]|11)-(0[1-9]|[12][0-9]|30)|02-(0[1-9]|[12][0-9]))/)`,
an unanchored search. The following functions implement exactly that
pattern; note `[1|2]` is a character class also admitting a literal bar,
and `02-29` is accepted (no leap-year check, as the code comments note). -/

def isDigitCh (c : Char) : Bool := decide ('0' ≤ c) && decide (c ≤ '9')

/-- `0[1-9]|[12][0-9]|3[01]` -/
def dayTo31 (d1 d2 : Char) : Bool :=
  (d1 == '0' && decide ('1' ≤ d2) && decide (d2 ≤ '9'))
  || ((d1 == '1' || d1 == '2') && isDigitCh d2)
  || (d1 == '3' && (d2 == '0' || d2 == '1'))

/-- `0[1-9]|[12][0-9]|30` -/
def dayTo30 (d1 d2 : Char) : Bool :=
  (d1 == '0' && decide ('1' ≤ d2) && decide (d2 ≤ '9'))
  || ((d1 == '1' || d1 == '2') && isDigitCh d2)
  || (d1 == '3' && d2 == '0')

/-- `0[1-9]|[12][0-9]` -/
def dayTo29 (d1 d2 : Char) : Bool :=
  (d1 == '0' && decide ('1' ≤ d2) && decide (d2 ≤ '9'))
  || ((d1 == '1' || d1 == '2') && isDigitCh d2)

/-- The month-dash-day alternation of the pattern. -/
def monthDayMatch : List Char → Bool
  | m1 :: m2 :: '-' :: d1 :: d2 :: _ =>
      (((m1 == '0' && (m2 == '1' || m2 == '3' || m2 == '5' || m2 == '7' || m2 == '8'))
          || (m1 == '1' && (m2 == '0' || m2 == '2'))) && dayTo31 d1 d2)
      || (((m1 == '0' && (m2 == '4' || m2 == '6' || m2 == '9'))
          || (m1 == '1' && m2 == '1')) && dayTo30 d1 d2)
      || ((m1 == '0' && m2 == '2') && dayTo29 d1 d2)
  | _ => false

/-- Match the whole pattern at the start of the character list. -/
def dateMatchAt : List Char → Bool
  | c0 :: c1 :: c2 :: c3 :: '-' :: rest =>
      (c0 == '1' || c0 == '|' || c0 == '2')
      && isDigitCh c1 && isDigitCh c2 && isDigitCh c3
      && monthDayMatch rest
  | _ => false

/-- Unanchored search, as `String.prototype.match` performs. -/
def jsDateSearch : List Char → Bool
  | [] => false
  | c :: t => dateMatchAt (c :: t) || jsDateSearch t

/-- The controller's date-format test. -/
def jsDateTest (s : String) : Bool := jsDateSearch s.data

/-! ### Existence validators (spec-modelled) -/

/-- Modelled from the spec: the id existence validator of §6
(`validateIds(candidateIds, kind)`), instantiated for LinkedEvent ids.
The controller imports `validateLinkedEventIds` from
src/controllers/validateIds.js, which is absent from the corpus (only a
later-era variant of that module survives). Per §6 it keeps exactly the
candidate ids that exist in the target collection, never erring, and
returns the stored ObjectIDs. -/
def validateLinkedEventIdsM (st : Store) (cands : List RefVal) : List RefVal :=
  (cands.filter (fun c => st.links.any (fun l => l.id == c.castId))).map
    (fun c => RefVal.oid c.castId)

/-- Modelled from the spec: the §6 id existence validator for Club ids
(same missing module as `validateLinkedEventIdsM`). -/
def validateClubIdsM (st : Store) (cands : List RefVal) : List RefVal :=
  (cands.filter (fun c => st.clubs.any (fun k => k == c.castId))).map
    (fun c => RefVal.oid c.castId)

/-- Modelled from the spec: the §6 existence check for a single User id
(same missing module), resolving to whether the user exists. -/
def validateUserIdM (st : Store) (cand : RefVal) : Bool :=
  st.users.any (fun k => k == cand.castId)

/-! ### updateEvent -/

/-- The PATCH body of updateEvent, restricted to the keys the handler
whitelists; `none` means the key is absent from the request (for the two
id-array fields, also covering a value that is not an array). -/
structure UpdateEventBody where
  date : Option String
  name : Option String
  mapName : Option String
  locPlace : Option String
  locCountry : Option String
  website : Option String
  results : Option String
  locRegions : Option (List String)
  types : Option (List String)
  tags : Option (List String)
  locLat : Option ℚ
  locLong : Option ℚ
  organisedBy : Option (List RefVal)
  linkedTo : Option (List RefVal)
  owner : Option RefVal
deriving DecidableEq

/-- A request body with every key absent. -/
def emptyUpdateBody : UpdateEventBody :=
  ⟨none, none, none, none, none, none, none, none, none, none, none, none,
   none, none, none⟩

def countOpt {α : Type} : Option α → Nat
  | some _ => 1
  | none => 0

/-- How many whitelisted scalar keys the body supplies (each present key
becomes one entry of `fieldsToUpdate`, lines 1228-1232). -/
def scalarFieldsCount (b : UpdateEventBody) : Nat :=
  countOpt b.date + countOpt b.name + countOpt b.mapName + countOpt b.locPlace
  + countOpt b.locCountry + countOpt b.website + countOpt b.results
  + countOpt b.locRegions + countOpt b.types + countOpt b.tags
  + countOpt b.locLat + countOpt b.locLong

/-- Replace an optional stored field when the body supplies the key. -/
def updOpt {α : Type} (new : Option α) (old : Option α) : Option α :=
  match new with
  | some x => some x
  | none => old

/-- `$set` of the collected `fieldsToUpdate` onto the event document
(updateEvent line 1270; absent keys leave the stored value). -/
def applyEventSet (e : EventDoc) (b : UpdateEventBody)
    (clubIds linkedIds : Option (List RefVal)) (newOwner : Option Nat) : EventDoc :=
  { e with
    date := b.date.getD e.date
    name := b.name.getD e.name
    mapName := updOpt b.mapName e.mapName
    locPlace := updOpt b.locPlace e.locPlace
    locCountry := updOpt b.locCountry e.locCountry
    website := updOpt b.website e.website
    results := updOpt b.results e.results
    locRegions := (b.locRegions).getD e.locRegions
    types := (b.types).getD e.types
    tags := (b.tags).getD e.tags
    locLat := updOpt b.locLat e.locLat
    locLong := updOpt b.locLong e.locLong
    organisedBy := match clubIds with
      | some ids => ids.map RefVal.castId
      | none => e.organisedBy
    linkedTo := match linkedIds with
      | some ids => ids.map RefVal.castId
      | none => e.linkedTo
    owner := newOwner.getD e.owner }

/-- updateEvent lines 1200-1202 and 1253-1260: `currentLinkedEvents` are the
stored refs mapped `.toString()`; `newLinkedEvents` are the validated ids
mapped `.toString()` when a list was supplied, but the RAW ObjectIDs of
`eventToUpdate.linkedTo` otherwise; added/removed are the two
filter-not-includes differences over those lists. -/
def computeLinkedDelta (linkedToRaw : List RefVal) (validated : Option (List RefVal)) :
    List RefVal × List RefVal :=
  let current := linkedToRaw.map RefVal.toStr
  let newRefs := match validated with
    | some ids => ids.map RefVal.toStr
    | none => linkedToRaw
  (newRefs.filter (fun i => !(current.contains i)),
   current.filter (fun i => !(newRefs.contains i)))

/-- `LinkedEvent.updateMany({_id: {$in: targets}}, {$addToSet: {includes: eid}})`;
mongoose casts the `$in` values to ObjectIds. -/
def addToSetIncludes (links : List LinkDoc) (targets : List Nat) (eid : Nat) :
    List LinkDoc :=
  links.map (fun l =>
    if targets.contains l.id then
      { l with includes := if l.includes.contains eid then l.includes else l.includes ++ [eid] }
    else l)

/-- `LinkedEvent.updateMany({_id: {$in: targets}}, {$pull: {includes: eid}})`. -/
def pullIncludes (links : List LinkDoc) (targets : List Nat) (eid : Nat) :
    List LinkDoc :=
  links.map (fun l =>
    if targets.contains l.id then
      { l with includes := l.includes.filter (fun i => !(i == eid)) }
    else l)

/-- Does a stored event match the duplicate-check query
`Event.findOne({date: req.body.date, name: req.body.name})`?
mongoose strips keys whose value is `undefined` from the filter. -/
def dupQueryMatch (bdate bname : Option String) (e : EventDoc) : Bool :=
  (match bdate with | some s => s == e.date | none => true)
  && (match bname with | some s => s == e.name | none => true)

/-- The body of updateEvent once the duplicate check has passed (lines
1191-1301): existence check, permission check (with the raw-ObjectID runner
ids of lines 1196-1198), field collection, primary `$set`, then the
`$addToSet` mirror pass followed by the `$pull` mirror pass. -/
def updateEventFound (st : Store) (req : Viewer) (eventid : Nat) (b : UpdateEventBody) :
    Status × Store :=
  match findEvent st eventid with
  | none => (Status.notFound404, st)
  | some ev =>
    -- line 1196-1198: `runner.user` WITHOUT .toString(), so raw ObjectIDs
    let runnerIds : List RefVal := ev.runners.filterMap (fun r => r.user.map RefVal.oid)
    let allowedToUpdate :=
      (req.role == Role.admin)
      || (req.role == Role.standard && req.id == ev.owner)
      || (req.role == Role.standard && runnerIds.contains (RefVal.str req.id))
    if allowedToUpdate then
      let clubIds := b.organisedBy.map (validateClubIdsM st)
      let linkedIds := b.linkedTo.map (validateLinkedEventIdsM st)
      let ownerOk := match b.owner with
        | some o => req.role == Role.admin && validateUserIdM st o
        | none => false
      let delta := computeLinkedDelta (ev.linkedTo.map RefVal.oid) linkedIds
      let fieldCount := scalarFieldsCount b + countOpt clubIds + countOpt linkedIds
        + (if ownerOk then 1 else 0)
      if fieldCount == 0 then (Status.bad400, st)
      else
        let newOwner := if ownerOk then b.owner.map RefVal.castId else none
        let ev2 := applyEventSet ev b clubIds linkedIds newOwner
        let st2 := replaceEvent st eventid ev2
        let st3 := { st2 with
          links := addToSetIncludes st2.links (delta.1.map RefVal.castId) eventid }
        let st4 := { st3 with
          links := pullIncludes st3.links (delta.2.map RefVal.castId) eventid }
        (Status.ok200, st4)
    else (Status.auth401, st)

/-- The updateEvent handler (lines 1165-1306): guest gate, optional date
format check, duplicate (date, name) check, then `updateEventFound`. -/
def updateEventOp (st : Store) (req : Viewer) (eventid : Nat) (b : UpdateEventBody) :
    Status × Store :=
  if req.role == Role.guest then (Status.auth401, st)
  else if b.date.getD "" != "" && !(jsDateTest (b.date.getD "")) then (Status.bad400, st)
  else
    match st.events.find? (dupQueryMatch b.date b.name) with
    | some existing =>
      if !(existing.id == eventid) then (Status.bad400, st)
      else updateEventFound st req eventid b
    | none => updateEventFound st req eventid b

/-! ### updateEventLink -/

/-- updateEventLink lines 1410 and 1421-1426: the same delta computation as
updateEvent, over a LinkedEvent's `includes`: current refs mapped
`.toString()`, new refs the validated ids mapped `.toString()` when supplied
but the RAW ObjectIDs of `linkedEventToUpdate.includes` otherwise. -/
def computeIncludesDelta (includesRaw : List RefVal) (validated : Option (List RefVal)) :
    List RefVal × List RefVal :=
  let current := includesRaw.map RefVal.toStr
  let newIncludes := match validated with
    | some ids => ids.map RefVal.toStr
    | none => includesRaw
  (newIncludes.filter (fun i => !(current.contains i)),
   current.filter (fun i => !(newIncludes.contains i)))

/-! ### updateEventRunner -/

/-- The PATCH body of updateEventRunner, restricted to its whitelist
(lines 1344-1358); `none` means the key is absent. -/
structure RunnerUpdateBody where
  visibility : Option Vis
  courseTitle : Option String
  courseLength : Option String
  courseClimb : Option String
  courseControls : Option String
  fullResults : Option (List ResultRow)
  time : Option String
  place : Option String
  timeBehind : Option String
  fieldSize : Option String
  distanceRun : Option String
  tags : Option (List String)
  maps : Option (List MapDoc)
deriving DecidableEq

/-- `numberOfFieldsToUpdate` for a runner update (line 1365). -/
def runnerUpdateCount (b : RunnerUpdateBody) : Nat :=
  countOpt b.visibility + countOpt b.courseTitle + countOpt b.courseLength
  + countOpt b.courseClimb + countOpt b.courseControls + countOpt b.fullResults
  + countOpt b.time + countOpt b.place + countOpt b.timeBehind
  + countOpt b.fieldSize + countOpt b.distanceRun + countOpt b.tags
  + countOpt b.maps

/-- The sub-document that `$set: {'runners.$': fieldsToUpdateRunner}`
(line 1372) stores: mongoose casts the plain object against the runner
sub-schema, so supplied keys are kept, `visibility` falls back to its schema
default, array paths default to empty, and `user` — absent from the
whitelist — is simply missing (update validators do not run). -/
def runnerFromBody (b : RunnerUpdateBody) : RunnerDoc :=
  { user := none
    visibility := b.visibility.getD Vis.vAll
    courseTitle := b.courseTitle
    courseLength := b.courseLength
    courseClimb := b.courseClimb
    courseControls := b.courseControls
    fullResults := (b.fullResults).getD []
    time := b.time
    place := b.place
    timeBehind := b.timeBehind
    fieldSize := b.fieldSize
    distanceRun := b.distanceRun
    tags := (b.tags).getD []
    maps := (b.maps).getD []
    comments := [] }

/-- The positional `runners.$` operator targets the first array element
matched by `'runners.user': userid`. -/
def replaceFirstRunner (rs : List RunnerDoc) (userid : Nat) (nr : RunnerDoc) :
    List RunnerDoc :=
  match rs with
  | [] => []
  | r :: t => if r.user == some userid then nr :: t else r :: replaceFirstRunner t userid nr

/-- The updateEventRunner handler (lines 1309-1390). Line 1334 compares
`runner.user.toString()` against the string `userid`, so here (unlike
updateEvent's permission check) ids compare by value. -/
def updateEventRunnerOp (st : Store) (req : Viewer) (eventid userid : Nat)
    (b : RunnerUpdateBody) : Status × Store :=
  if req.role == Role.guest then (Status.auth401, st)
  else
    match findEvent st eventid with
    | none => (Status.notFound404, st)
    | some ev =>
      let runnerIds := ev.runners.filterMap (fun r => r.user)
      if !(runnerIds.contains userid) then (Status.bad400, st)
      else
        let allowedToUpdate :=
          (req.role == Role.admin) || (req.role == Role.standard && req.id == userid)
        if allowedToUpdate then
          if runnerUpdateCount b == 0 then (Status.bad400, st)
          else
            let ev2 := { ev with runners := replaceFirstRunner ev.runners userid (runnerFromBody b) }
            (Status.ok200, replaceEvent st eventid ev2)
        else (Status.auth401, st)

/-! ### deleteEvent -/

/-- The timestamp components `new Date()` supplies to deleteEvent; `month`
is the human month (the code computes it as `getMonth() + 1`). -/
structure Clock where
  day : Nat
  month : Nat
  year : Nat
  hour : Nat
  minute : Nat
deriving DecidableEq

/-- `('0' + n).slice(-2)`: the last two characters of `'0'` prepended to the
decimal form. -/
def pad2 (n : Nat) : String :=
  let s := "0" ++ toString n
  s.drop (s.length - 2)

/-- The deletion tag of deleteEvent lines 1492-1497:
`deleted:DDMMYYYY@HHMM`. -/
def deletedTag (c : Clock) : String :=
  "deleted:" ++ pad2 c.day ++ pad2 c.month ++ toString c.year ++ "@"
  ++ pad2 c.hour ++ pad2 c.minute

/-- The `$set` deleteEvent applies on success (lines 1499-1503):
active := false, name suffixed with the tag, and orisId suffixed when
present and non-empty (a falsy orisId is replaced with null). -/
def softDeletedDoc (ev : EventDoc) (c : Clock) : EventDoc :=
  { ev with
    active := false
    name := ev.name ++ " " ++ deletedTag c
    orisId := match ev.orisId with
      | some o => if o == "" then none else some (o ++ " " ++ deletedTag c)
      | none => none }

/-- `LinkedEvent.updateMany({}, {$pull: {includes: eventid}})`
(lines 1509-1510): every LinkedEvent drops the reference. -/
def pullAllStore (st : Store) (eventid : Nat) : Store :=
  { st with links := st.links.map (fun l =>
      { l with includes := l.includes.filter (fun i => !(i == eventid)) }) }

/-- The deleteEvent handler (lines 1464-1524): no guest gate; permission is
admin or standard owner; deletion also requires that no runner of another
user remains; success soft-deletes the document and pulls its id from every
LinkedEvent's `includes`; the document is never removed. -/
def deleteEventOp (st : Store) (req : Viewer) (eventid : Nat) (c : Clock) :
    Status × Store :=
  match findEvent st eventid with
  | none => (Status.notFound404, st)
  | some ev =>
    let hasPermissionToDelete :=
      (req.role == Role.admin) || (req.role == Role.standard && req.id == ev.owner)
    let noOtherRunners :=
      (ev.runners.length == 0)
      || ((ev.runners.filter (fun r => !(r.user == some req.id))).length == 0)
    if hasPermissionToDelete && noOtherRunners then
      (Status.ok200, pullAllStore (replaceEvent st eventid (softDeletedDoc ev c)) eventid)
    else (Status.auth401, st)

/-! ### createEvent -/

/-- The POST body of createEvent, restricted to its whitelist
(lines 52-66) plus the two specially handled id arrays. -/
structure CreateEventBody where
  date : Option String
  name : Option String
  mapName : Option String
  locPlace : Option String
  locCountry : Option String
  website : Option String
  results : Option String
  orisId : Option String
  locRegions : Option (List String)
  types : Option (List String)
  tags : Option (List String)
  locLat : Option ℚ
  locLong : Option ℚ
  organisedBy : Option (List RefVal)
  linkedTo : Option (List RefVal)
deriving DecidableEq

/-- The event document createEvent persists on success (owner is the
creator; absent keys fall to the schema defaults; validated id arrays are
installed only when the corresponding key was supplied as an array). -/
def createdEventDoc (st : Store) (req : Viewer) (b : CreateEventBody) (freshId : Nat) :
    EventDoc :=
  let clubIds := b.organisedBy.map (validateClubIdsM st)
  let linkedIds := b.linkedTo.map (validateLinkedEventIdsM st)
  { id := freshId
    owner := req.id
    date := b.date.getD ""
    name := b.name.getD ""
    orisId := b.orisId
    mapName := b.mapName
    locPlace := b.locPlace
    locCountry := b.locCountry
    website := b.website
    results := b.results
    locRegions := (b.locRegions).getD []
    types := (b.types).getD []
    tags := (b.tags).getD []
    locLat := b.locLat
    locLong := b.locLong
    organisedBy := ((clubIds.getD []).map RefVal.castId)
    linkedTo := ((linkedIds.getD []).map RefVal.castId)
    runners := []
    active := true }

/-- The success branch of createEvent: persist the new document, then the
`$addToSet` mirror pass over the validated linked ids (lines 87-96). -/
def createEventAccepted (st : Store) (req : Viewer) (b : CreateEventBody) (freshId : Nat) :
    Status × Store :=
  let linkedIds := b.linkedTo.map (validateLinkedEventIdsM st)
  let newEvent := createdEventDoc st req b freshId
  let st2 := { st with events := st.events ++ [newEvent] }
  (Status.ok200,
   { st2 with links := addToSetIncludes st2.links ((linkedIds.getD []).map RefVal.castId) freshId })

/-- The createEvent handler (lines 26-103): guest gate, presence check on
name and date, date format check, then the duplicate check
`Event.findOne({date, name})` — note it carries NO `active` condition —
then the success branch. -/
def createEventOp (st : Store) (req : Viewer) (b : CreateEventBody) (freshId : Nat) :
    Status × Store :=
  if req.role == Role.guest then (Status.auth401, st)
  else if b.date.getD "" == "" || b.name.getD "" == "" then (Status.bad400, st)
  else if !(jsDateTest (b.date.getD "")) then (Status.bad400, st)
  else if st.events.any (fun e => e.date == b.date.getD "" && e.name == b.name.getD "") then
    (Status.bad400, st)
  else createEventAccepted st req b freshId

/-! ### Read-path event selection (getEvent / getEventList, store level) -/

/-- Query-string filters of getEventList, reduced to the shapes the handler
builds (lines 967-1001): regex conditions on whitelisted string fields
(their per-string matching semantics abstracted into a parameter below),
id conditions on whitelisted id fields, and latitude/longitude open ranges
whose bounds the handler pre-parses with `parseFloat` and defaults. -/
structure ListQuery where
  strFilters : List (String × String)
  idFilters : List (String × Nat)
  locLat : Option (ℚ × ℚ)
  locLong : Option (ℚ × ℚ)
deriving DecidableEq

/-- Line 969-970: the string-filter whitelist (note `locName` matches no
schema field). `active` is absent, so no query key can touch it. -/
def validStringFilters : List String :=
  ["date", "name", "orisId", "mapName", "locName", "locPlace", "locRegions",
   "locCountry", "types", "tags", "website", "results"]

/-- Line 971: the id-filter whitelist. `active` is absent here too. -/
def validIdFilters : List String := ["owner", "organisedBy", "linkedTo", "runners"]

/-- The stored strings a string-filter key is matched against (a regex
condition on an array field matches any element; a missing field matches
nothing). -/
def stringFieldsOf (e : EventDoc) (key : String) : List String :=
  if key == "date" then [e.date]
  else if key == "name" then [e.name]
  else if key == "orisId" then match e.orisId with | some s => [s] | none => []
  else if key == "mapName" then match e.mapName with | some s => [s] | none => []
  else if key == "locPlace" then match e.locPlace with | some s => [s] | none => []
  else if key == "locRegions" then e.locRegions
  else if key == "locCountry" then match e.locCountry with | some s => [s] | none => []
  else if key == "types" then e.types
  else if key == "tags" then e.tags
  else if key == "website" then match e.website with | some s => [s] | none => []
  else if key == "results" then match e.results with | some s => [s] | none => []
  else []

/-- The stored ids an id-filter key is matched against (`runners` uses the
`$elemMatch` on `runners.user`, line 981). -/
def idFieldsOf (e : EventDoc) (key : String) : List Nat :=
  if key == "owner" then [e.owner]
  else if key == "organisedBy" then e.organisedBy
  else if key == "linkedTo" then e.linkedTo
  else if key == "runners" then e.runners.filterMap (fun r => r.user)
  else []

/-- Does a stored event match `eventSearchCriteria`? The criteria always
begin as `{active: true}` (line 967) and the loop only adds whitelisted
keys, so `active = true` is a conjunct no query can remove. `sm` is the
regex-matching semantics (`new RegExp(value)` tested against a string). -/
def eventMatchesQuery (sm : String → String → Bool) (q : ListQuery) (e : EventDoc) :
    Bool :=
  e.active
  && q.strFilters.all (fun kv =>
      if validStringFilters.contains kv.1 then (stringFieldsOf e kv.1).any (sm kv.2)
      else true)
  && q.idFilters.all (fun kv =>
      if validIdFilters.contains kv.1 then (idFieldsOf e kv.1).contains kv.2
      else true)
  && (match q.locLat with
      | some bs => match e.locLat with
        | some x => decide (bs.1 < x) && decide (x < bs.2)
        | none => false
      | none => true)
  && (match q.locLong with
      | some bs => match e.locLong with
        | some x => decide (bs.1 < x) && decide (x < bs.2)
        | none => false
      | none => true)

/-- The events `Event.find(eventSearchCriteria)` returns to getEventList
(each is then reduced to its summary for the viewer). -/
def getEventListEvents (st : Store) (sm : String → String → Bool) (q : ListQuery) :
    List EventDoc :=
  st.events.filter (eventMatchesQuery sm q)

/-- getEvent line 1113: `Event.findOne({_id: eventid, active: true})`. -/
def findOneActiveEvent (st : Store) (eid : Nat) : Option EventDoc :=
  st.events.find? (fun e => e.id == eid && e.active)

/-- The outcome of the getEvent lookup stage: a missing result is answered
with 404 (lines 1127-1131) before any runner filtering happens. -/
inductive DetailLookup where
  | notFound
  | found (e : EventDoc)
deriving DecidableEq

/-- getEvent's database stage for any viewer. -/
def getEventLookup (st : Store) (eid : Nat) : DetailLookup :=
  match findOneActiveEvent st eid with
  | none => DetailLookup.notFound
  | some e => DetailLookup.found e

/-! ### Reference-graph consistency (spec §3 invariant) -/

/-- The bidirectional invariant of spec §3: `e.id ∈ l.includes ⟺
l.id ∈ e.linkedTo`, with no dangling and no duplicated reference on either
side. -/
def consistent (st : Store) : Prop :=
  (∀ e ∈ st.events, ∀ l ∈ st.links, (e.id ∈ l.includes ↔ l.id ∈ e.linkedTo))
  ∧ (∀ e ∈ st.events, e.linkedTo.Nodup ∧ ∀ i ∈ e.linkedTo, ∃ l ∈ st.links, l.id = i)
  ∧ (∀ l ∈ st.links, l.includes.Nodup ∧ ∀ i ∈ l.includes, ∃ e ∈ st.events, e.id = i)

instance (st : Store) : Decidable (consistent st) := by
  unfold consistent
  infer_instance

/-! ### Track distance (postMap lines 523-531 and 588)

`getQRData` and `calculateDistance` live in src/utils/parseQR.js, which is
outside the corpus; per spec §4.3 `calculateDistance` is a standard
great-circle distance in metres between two waypoints, so it is kept
abstract here (a parameter `d`), and the claims about the summation
structure are stated for any `d`. Waypoints are [lat, long] pairs. -/

/-- The distance the upload path computes (lines 528-531):
`trackDistance = d(w[0], w[1])`, then for `i` from 0 while `i <
trackCoords.length - 2`, `trackDistance += d(w[i], w[i+1])`. Faithful for
tracks of at least two waypoints (all indices are then in bounds; shorter
tracks read `undefined` in the JavaScript). -/
def codeTrackDistance (d : ℚ × ℚ → ℚ × ℚ → ℚ) (w : List (ℚ × ℚ)) : ℚ :=
  (List.range (w.length - 2)).foldl
    (fun acc i => acc + d (w.getD i (0, 0)) (w.getD (i + 1) (0, 0)))
    (d (w.getD 0 (0, 0)) (w.getD 1 (0, 0)))

/-- The total the claim predicts: Σ over i in [0, n-2] of d(w[i], w[i+1]),
0 when fewer than two waypoints (the spec-side definition for the
comparison). -/
def specTrackDistance (d : ℚ × ℚ → ℚ × ℚ → ℚ) (w : List (ℚ × ℚ)) : ℚ :=
  (List.range (w.length - 1)).foldl
    (fun acc i => acc + d (w.getD i (0, 0)) (w.getD (i + 1) (0, 0))) 0

/-- Line 588: `Math.floor(trackDistance) / 1000`. -/
def storedDistanceKm (x : ℚ) : ℚ := ((Int.floor x : Int) : ℚ) / 1000

/-! ### Spec-side predicates for the claims -/

/-- The delete permission as the amended claim words it: admin, or the
event's owner holding the standard role. -/
def deletePermitted (req : Viewer) (ev : EventDoc) : Prop :=
  req.role = Role.admin ∨ (req.role = Role.standard ∧ req.id = ev.owner)

instance (req : Viewer) (ev : EventDoc) : Decidable (deletePermitted req ev) := by
  unfold deletePermitted
  infer_instance

/-- Some runner entry of the event belongs to a user other than the
requester. -/
def otherRunnerPresent (req : Viewer) (ev : EventDoc) : Prop :=
  ∃ r ∈ ev.runners, r.user ≠ some req.id

instance (req : Viewer) (ev : EventDoc) : Decidable (otherRunnerPresent req ev) := by
  unfold otherRunnerPresent
  infer_instance

/-- The two events' listing summaries agree on every emitted field except
`totalRunners`, with the optional runner list compared after defaulting an
absent one to empty. -/
def listSummariesAgreeExceptTotal (v : Viewer) (e1 e2 : PopEvent) : Prop :=
  (getEventListSummary v e1).id = (getEventListSummary v e2).id
  ∧ (getEventListSummary v e1).orisId = (getEventListSummary v e2).orisId
  ∧ (getEventListSummary v e1).date = (getEventListSummary v e2).date
  ∧ (getEventListSummary v e1).name = (getEventListSummary v e2).name
  ∧ (getEventListSummary v e1).mapName = (getEventListSummary v e2).mapName
  ∧ (getEventListSummary v e1).locPlace = (getEventListSummary v e2).locPlace
  ∧ (getEventListSummary v e1).locCountry = (getEventListSummary v e2).locCountry
  ∧ (getEventListSummary v e1).locLat = (getEventListSummary v e2).locLat
  ∧ (getEventListSummary v e1).locLong = (getEventListSummary v e2).locLong
  ∧ (getEventListSummary v e1).locCornerSW = (getEventListSummary v e2).locCornerSW
  ∧ (getEventListSummary v e1).locCornerNE = (getEventListSummary v e2).locCornerNE
  ∧ (getEventListSummary v e1).organisedBy = (getEventListSummary v e2).organisedBy
  ∧ (getEventListSummary v e1).linkedTo = (getEventListSummary v e2).linkedTo
  ∧ (getEventListSummary v e1).types = (getEventListSummary v e2).types
  ∧ (getEventListSummary v e1).tags = (getEventListSummary v e2).tags
  ∧ ((getEventListSummary v e1).runners).getD [] = ((getEventListSummary v e2).runners).getD []

/-! ### Concrete sample data (inputs for counterexamples and witnesses) -/

/-- An anonymous viewer. -/
def vAnon : Viewer := ⟨Role.anonymous, 0, []⟩

/-- A standard-role viewer who is a member of club 4. -/
def vClubViewer : Viewer := ⟨Role.standard, 10, [4]⟩

/-- A user who is also a member of club 4. -/
def clubUser : UserView := ⟨5, "clubRunner", [4]⟩

/-- That user's runner entry with `club` visibility (the viewer above shares
club 4 with them and is not them). -/
def rClubVis : RunnerView :=
  ⟨clubUser, Vis.vClub, none, none, none, none, none, none, none, none,
   none, [], [], []⟩

/-- The user behind a runner entry no anonymous viewer may see. -/
def hiddenUser : UserView := ⟨5, "runnerFive", []⟩

/-- A runner entry with `private` visibility. -/
def rPrivate : RunnerView :=
  ⟨hiddenUser, Vis.vPrivate, none, none, none, none, none, none, none, none,
   none, [], [], []⟩

/-- A populated event without runners. -/
def basePopEvent : PopEvent :=
  ⟨1, 2, none, "2020-06-01", "Event A", none, none, none, none, none, [], [],
   [], [], [], [], none, none, []⟩

/-- The same event carrying one private runner entry. -/
def popEventHidden : PopEvent := { basePopEvent with runners := [rPrivate] }

/-- A LinkedEvent that includes event 1. -/
def linkNine : LinkDoc := ⟨9, "MultiDay", [1]⟩

/-- A runner sub-document for the given user, otherwise at defaults. -/
def runnerDocOf (u : Nat) : RunnerDoc :=
  ⟨some u, Vis.vAll, none, none, none, none, [], none, none, none, none, none,
   [], [], []⟩

/-- A stored event linked to LinkedEvent 9. -/
def eventOne : EventDoc :=
  ⟨1, 2, "2020-06-01", "Event A", none, none, none, none, none, none, [], [],
   [], none, none, [], [9], [], true⟩

/-- A consistent store: event 1 and link 9 reference each other. -/
def storeLinked : Store := ⟨[eventOne], [linkNine], [], []⟩

/-- An admin requester. -/
def reqAdmin : Viewer := ⟨Role.admin, 99, []⟩

/-- A PATCH body supplying only `name` (no `linkedTo` key). -/
def bodyNameOnly : UpdateEventBody := { emptyUpdateBody with name := some "Event A" }

/-- The store after the name-only update: event 1 still lists link 9, but
link 9 no longer includes event 1. -/
def storeLinkedAfter : Store := ⟨[eventOne], [⟨9, "MultiDay", []⟩], [], []⟩

/-- An event owned by user 5 whose only runner is user 3. -/
def eventB : EventDoc :=
  ⟨6, 5, "2021-03-14", "Event B", none, none, none, none, none, none, [], [],
   [], none, none, [], [], [runnerDocOf 3], true⟩

/-- Store for the runner-may-edit check. -/
def storeRunnerEdit : Store := ⟨[eventB], [], [], []⟩

/-- A standard-role requester who is a current runner of event 6 but neither
its owner nor an admin. -/
def reqCoRunner : Viewer := ⟨Role.standard, 3, []⟩

/-- A PATCH body supplying only `name`. -/
def bodyNameB : UpdateEventBody := { emptyUpdateBody with name := some "Event B" }

/-- A map record attached to a runner. -/
def mapDocOne : MapDoc := ⟨"map", some "images/maps/7/a.jpg", none, none, false⟩

/-- A comment attached to a runner. -/
def commentOne : CommentDoc := ⟨8, "nice route"⟩

/-- A fully populated runner entry of user 3 (course data, a map, a comment). -/
def runnerFull : RunnerDoc :=
  ⟨some 3, Vis.vClub, some "H21", some "7.7", some "310", some "18", [],
   some "62:30", none, none, none, none, [], [mapDocOne], [commentOne]⟩

/-- An event owned by user 3 with that runner entry. -/
def eventC : EventDoc :=
  ⟨7, 3, "2021-05-01", "Event C", none, none, none, none, none, none, [], [],
   [], none, none, [], [], [runnerFull], true⟩

/-- Store for the runner-update frame check. -/
def storeRunnerFull : Store := ⟨[eventC], [], [], []⟩

/-- A runner PATCH body supplying only `visibility`. -/
def bodyVisOnly : RunnerUpdateBody :=
  ⟨some Vis.vPrivate, none, none, none, none, none, none, none, none, none,
   none, none, none⟩

/-- What `$set: {'runners.$': {visibility: 'private'}}` leaves in the array:
user, course fields, maps and comments are gone. -/
def runnerReplaced : RunnerDoc :=
  ⟨none, Vis.vPrivate, none, none, none, none, [], none, none, none, none,
   none, [], [], []⟩

/-- Event 7 after the visibility-only runner update. -/
def eventCAfter : EventDoc := { eventC with runners := [runnerReplaced] }

/-- A three-waypoint track along a meridian-free line. -/
def sampleTrack : List (ℚ × ℚ) := [(0, 0), (0, 1), (0, 6)]

/-- A concrete pairwise distance (metres) standing in for the great-circle
distance of the spec-modelled `calculateDistance` at the sample waypoints:
1000 metres per unit of longitude along the sample track. -/
def sampleDist (p q : ℚ × ℚ) : ℚ := 1000 * (q.2 - p.2)

/-- An event owned by user 12 with no runner entries. -/
def eventGuestOwned : EventDoc :=
  ⟨11, 12, "2022-01-08", "Event D", none, none, none, none, none, none, [],
   [], [], none, none, [], [], [], true⟩

/-- Store holding only that event. -/
def storeGuestOwned : Store := ⟨[eventGuestOwned], [], [], []⟩

/-- User 12 as a guest-role requester (ownership can reach a guest user via
an admin owner change, which validates only existence). -/
def reqGuestOwner : Viewer := ⟨Role.guest, 12, []⟩

/-- A standard-role requester unrelated to event 11. -/
def reqStranger : Viewer := ⟨Role.standard, 50, []⟩

/-- A fixed wall-clock instant for the deletion tag. -/
def sampleClock : Clock := ⟨5, 3, 2021, 14, 7⟩

/-- A soft-deleted (inactive) event occupying the pair
("2020-06-01", "Spring Cup"). -/
def inactiveDup : EventDoc :=
  ⟨20, 2, "2020-06-01", "Spring Cup", none, none, none, none, none, none, [],
   [], [], none, none, [], [], [], false⟩

/-- Store whose only event is inactive. -/
def storeInactive : Store := ⟨[inactiveDup], [], [], []⟩

/-- A standard-role creator. -/
def reqStd : Viewer := ⟨Role.standard, 4, []⟩

/-- A POST body with every key absent. -/
def emptyCreateBody : CreateEventBody :=
  ⟨none, none, none, none, none, none, none, none, none, none, none, none,
   none, none, none⟩

/-- A create request for the exact (date, name) pair of the inactive event. -/
def bodySpringCup : CreateEventBody :=
  { emptyCreateBody with date := some "2020-06-01", name := some "Spring Cup" }

/-- The same name on a different date. -/
def bodySpringCup2 : CreateEventBody :=
  { emptyCreateBody with date := some "2020-06-02", name := some "Spring Cup" }

/-! ## Helper lemmas -/

theorem filterMap_guard_eq_filter {α : Type} (p : α → Bool) (l : List α) :
    (l.map (fun a => if p a then some a else none)).filterMap id = l.filter p := by
  induction l with
  | nil => rfl
  | cons a t ih => cases hp : p a <;> simp [List.filter_cons, hp, ih]

theorem filterMap_guardMap_eq {α β : Type} (p : α → Bool) (f : α → β) (l : List α) :
    (l.map (fun a => if p a then some (f a) else none)).filterMap id
      = (l.filter p).map f := by
  induction l with
  | nil => rfl
  | cons a t ih => cases hp : p a <;> simp [List.filter_cons, hp, ih]

theorem filterRunnersDetail_eq_filter (v : Viewer) (rs : List RunnerView) :
    filterRunnersDetail v rs = rs.filter (canSeeDetailV v) := by
  cases rs with
  | nil => rfl
  | cons a t =>
    simpa [filterRunnersDetail] using filterMap_guard_eq_filter (canSeeDetailV v) (a :: t)

theorem selectedRunnersList_eq (v : Viewer) (rs : List RunnerView) :
    selectedRunnersList v rs = (rs.filter (canSeeListV v)).map runnerSummary :=
  filterMap_guardMap_eq (canSeeListV v) runnerSummary rs

/-- A filter by membership in `S` keeps an element exactly when the two
lists intersect: the propositional face of the listing path's club test,
whose hex-id string comparisons reduce to id membership. -/
theorem filter_mem_length_pos_iff (S l : List Nat) :
    0 < (l.filter (fun c => decide (c ∈ S))).length ↔ ∃ c, c ∈ S ∧ c ∈ l := by
  rw [List.length_pos]
  constructor
  · intro h
    obtain ⟨c, hc⟩ := List.exists_mem_of_ne_nil _ h
    rw [List.mem_filter] at hc
    exact ⟨c, by simpa using hc.2, hc.1⟩
  · rintro ⟨c, hc1, hc2⟩
    intro hnil
    have hmem : c ∈ l.filter (fun c => decide (c ∈ S)) :=
      List.mem_filter.mpr ⟨hc2, by simpa using hc1⟩
    rw [hnil] at hmem
    exact (List.not_mem_nil c) hmem

/-- The detail path compares the viewer's id strings against inspect dumps
of populated club documents: no entry survives the filter, for any viewer. -/
theorem detailClubFilter_nil (v : Viewer) (memberOf : List Nat) :
    memberOf.filter
        (fun c => optClubsInclude (requestorClubs v) (MemberStr.docStr c)) = [] := by
  rw [List.filter_eq_nil_iff]
  intro c _
  unfold requestorClubs
  by_cases hv : v.role = Role.anonymous
  · simp [hv, optClubsInclude]
  · rw [if_neg hv]
    simp only [optClubsInclude]
    intro hcon
    simp at hcon

/-- The LISTING membership test implements the §4.2 rule table exactly. -/
theorem canSeeListV_iff_specVisible (v : Viewer) (r : RunnerView) :
    canSeeListV v r = true ↔ specVisible v r := by
  rcases v with ⟨role, uid, clubs⟩
  cases role <;>
    simp [canSeeListV, canSeeList, specVisible, requestorId, requestorClubs,
      specViewerClubs, optClubsInclude, filter_mem_length_pos_iff, and_assoc] <;>
    tauto

/-- The detail membership test grants at most what the listing test grants:
its only difference is the club clause, which is dead. -/
theorem canSeeDetailV_imp_canSeeListV (v : Viewer) (r : RunnerView) :
    canSeeDetailV v r = true → canSeeListV v r = true := by
  unfold canSeeDetailV canSeeListV canSeeDetail canSeeList
  rw [detailClubFilter_nil v r.user.memberOf]
  simp only [Bool.or_eq_true, Bool.and_eq_true, decide_eq_true_eq, List.length_nil,
    gt_iff_lt, lt_self_iff_false, decide_False, Bool.and_false, Bool.false_eq_true,
    and_false, or_false]
  tauto

/-- Equal rule-table-visible subsequences force equal detail-visible
subsequences, because detail visibility implies listing (= table)
visibility. -/
theorem filterDetail_eq_of_filterList_eq (v : Viewer) (l1 l2 : List RunnerView)
    (h : l1.filter (canSeeListV v) = l2.filter (canSeeListV v)) :
    l1.filter (canSeeDetailV v) = l2.filter (canSeeDetailV v) := by
  have key : ∀ l : List RunnerView,
      l.filter (canSeeDetailV v) = (l.filter (canSeeListV v)).filter (canSeeDetailV v) := by
    intro l
    rw [List.filter_filter]
    refine (List.filter_congr ?_).symm
    intro a _
    cases hd : canSeeDetailV v a
    · simp [hd]
    · simp [hd, canSeeDetailV_imp_canSeeListV v a hd]
  rw [key l1, key l2, h]

theorem summaryRunners_getD (v : Viewer) (e : PopEvent) :
    ((getEventListSummary v e).runners).getD []
      = (e.runners.filter (canSeeListV v)).map runnerSummary := by
  unfold getEventListSummary
  cases hr : e.runners with
  | nil => simp [hr]
  | cons a t => simp [hr, selectedRunnersList_eq]

theorem deleteEventOp_found (st : Store) (req : Viewer) (eid : Nat) (c : Clock)
    (ev : EventDoc) (hfind : findEvent st eid = some ev) :
    deleteEventOp st req eid c =
      if ((req.role == Role.admin) || (req.role == Role.standard && req.id == ev.owner))
          && ((ev.runners.length == 0)
              || ((ev.runners.filter (fun r => !(r.user == some req.id))).length == 0)) then
        (Status.ok200, pullAllStore (replaceEvent st eid (softDeletedDoc ev c)) eid)
      else (Status.auth401, st) := by
  unfold deleteEventOp
  rw [hfind]

theorem permB_iff (req : Viewer) (ev : EventDoc) :
    (((req.role == Role.admin) || (req.role == Role.standard && req.id == ev.owner)) = true)
      ↔ deletePermitted req ev := by
  simp [deletePermitted]

theorem noOtherB_iff (req : Viewer) (ev : EventDoc) :
    (((ev.runners.length == 0)
        || ((ev.runners.filter (fun r => !(r.user == some req.id))).length == 0)) = true)
      ↔ ¬ otherRunnerPresent req ev := by
  simp only [otherRunnerPresent, Bool.or_eq_true, beq_iff_eq, List.length_eq_zero,
    List.filter_eq_nil_iff, Bool.not_eq_true', beq_eq_false_iff_ne, ne_eq, not_not,
    not_exists, not_and]
  constructor
  · rintro (h | h)
    · simp [h]
    · exact fun r hr => h r hr
  · intro h
    exact Or.inr fun r hr => h r hr

theorem find?_map_update (l : List EventDoc) (eid : Nat) (ev ev2 : EventDoc)
    (h : l.find? (fun e => e.id == eid) = some ev) (h2 : ev2.id = ev.id) :
    (l.map (fun x => if x.id == eid then ev2 else x)).find? (fun e => e.id == eid)
      = some ev2 := by
  induction l with
  | nil => simp at h
  | cons a t ih =>
    rw [List.find?_cons] at h
    simp only [List.map_cons]
    cases ha : (a.id == eid) with
    | true =>
      rw [ha] at h
      obtain rfl : a = ev := by simpa using h
      have hev2 : (ev2.id == eid) = true := by
        rw [show ev2.id = a.id from h2]
        exact ha
      simp [List.find?_cons, hev2]
    | false =>
      rw [ha] at h
      have h3 : t.find? (fun e => e.id == eid) = some ev := h
      simpa [List.find?_cons, ha] using ih h3

theorem findEvent_replace (st : Store) (eid : Nat) (ev ev2 : EventDoc)
    (h : findEvent st eid = some ev) (h2 : ev2.id = ev.id) :
    findEvent (replaceEvent st eid ev2) eid = some ev2 :=
  find?_map_update st.events eid ev ev2 h h2

/-! ## Claim theorems -/

/-- C1: the rule table is NOT implemented identically by the two read
paths. A standard-role viewer in club 4 looking at a club-visibility runner
entry of another club-4 member is granted by the §4.2 table and by the
listing path, but the detail path drops the runner: getEvent deep-populates
`runners.user.memberOf` into club documents, whose `.toString()` is an
inspect dump never equal to an id string, so its club clause can never
fire. The listing path, operating on raw ObjectIDs, implements the table
exactly (final conjunct, for every viewer and runner). -/
theorem c1_club_clause_dead_in_detail :
    specVisible vClubViewer rClubVis
    ∧ canSeeListV vClubViewer rClubVis = true
    ∧ canSeeDetailV vClubViewer rClubVis = false
    ∧ selectedRunnersList vClubViewer [rClubVis] = [runnerSummary rClubVis]
    ∧ filterRunnersDetail vClubViewer [rClubVis] = []
    ∧ (∀ (v : Viewer) (r : RunnerView), canSeeListV v r = true ↔ specVisible v r) :=
  ⟨by decide, by decide, by decide, by decide, by decide, canSeeListV_iff_specVisible⟩

/-- C2 counterexample: two stored events that differ only in a runner
invisible to the anonymous viewer (one private runner versus none) produce
DIFFERENT listing responses — `totalRunners` counts the hidden runner — so
the claim that no response field can reveal a hidden runner is false. -/
theorem c2_counterexample :
    differOnlyInvisible vAnon popEventHidden basePopEvent
    ∧ getEventListSummary vAnon popEventHidden ≠ getEventListSummary vAnon basePopEvent :=
  ⟨by decide, by decide⟩

/-- C2 amended: for two stored events differing only in runners failing
every §4.2 clause for the viewer, the detail responses are identical — the
detail filter hides at least as much as the rule table, its club clause
being dead — and the listing summaries agree on every field except
`totalRunners` (which counts hidden runners) and except for the bare
presence of an empty runner list. -/
theorem c2_amended (v : Viewer) (e1 e2 : PopEvent)
    (h : differOnlyInvisible v e1 e2) :
    getEventDetailResponse v e1 = getEventDetailResponse v e2
    ∧ listSummariesAgreeExceptTotal v e1 e2 := by
  obtain ⟨hf, hrun⟩ := h
  have hdetail : filterRunnersDetail v e1.runners = filterRunnersDetail v e2.runners := by
    rw [filterRunnersDetail_eq_filter, filterRunnersDetail_eq_filter]
    exact filterDetail_eq_of_filterList_eq v e1.runners e2.runners hrun
  constructor
  · calc getEventDetailResponse v e1
        = { ({ e1 with runners := ([] : List RunnerView) } : PopEvent) with
            runners := filterRunnersDetail v e1.runners } := rfl
      _ = { ({ e2 with runners := ([] : List RunnerView) } : PopEvent) with
            runners := filterRunnersDetail v e2.runners } := by rw [hf, hdetail]
      _ = getEventDetailResponse v e2 := rfl
  · have hfields := hf
    rw [PopEvent.mk.injEq] at hfields
    obtain ⟨h1, h2, h3, h4, h5, h6, h7, h8, h9, h10, h11, h12, h13, h14, h15,
      h16, h17, h18, h19⟩ := hfields
    refine ⟨h1, h3, h4, h5, h6, h7, h8, h9, h10, h11, h12, h13, h14, h15, h16, ?_⟩
    rw [summaryRunners_getD, summaryRunners_getD, hrun]

/-- C2 amended, witness: the amended statement applied to two concrete
events that differ only in an anonymous-invisible private runner. -/
theorem c2_amended_witness :
    getEventDetailResponse vAnon popEventHidden = getEventDetailResponse vAnon basePopEvent
    ∧ listSummariesAgreeExceptTotal vAnon popEventHidden basePopEvent :=
  c2_amended vAnon popEventHidden basePopEvent (by decide)

/-- C3: when the request supplies no new reference list, the computed delta
is NOT (∅, ∅): for an event whose `linkedTo` is [9], updateEvent computes
added = [ObjectID 9] and removed = ["9"] (raw ObjectIDs versus their string
forms never compare equal), updateEventLink computes the analogous
non-empty delta over `includes`, and a completed name-only update therefore
strips the mirror reference (link 9 loses event 1 from `includes`) while
the event's own `linkedTo` is untouched — the claim's no-change contract is
violated. -/
theorem c3_absent_newrefs_nonempty_delta :
    computeLinkedDelta [RefVal.oid 9] none = ([RefVal.oid 9], [RefVal.str 9])
    ∧ computeIncludesDelta [RefVal.oid 1] none = ([RefVal.oid 1], [RefVal.str 1])
    ∧ updateEventOp storeLinked reqAdmin 1 bodyNameOnly = (Status.ok200, storeLinkedAfter)
    ∧ (∃ l ∈ storeLinked.links, (1 : Nat) ∈ l.includes)
    ∧ (∀ l ∈ storeLinkedAfter.links, (1 : Nat) ∉ l.includes)
    ∧ (∀ e ∈ storeLinkedAfter.events, e.linkedTo = [9]) :=
  ⟨rfl, rfl, by decide, by decide, by decide, by decide⟩

/-- C4: starting from a consistent store (event 1 ↔ link 9), one completed
updateEvent that does not mention `linkedTo` ends with event 1 still
listing link 9 while link 9 no longer includes event 1 — the bidirectional
invariant is broken by a completed operation. -/
theorem c4_symmetry_broken_by_update :
    consistent storeLinked
    ∧ updateEventOp storeLinked reqAdmin 1 bodyNameOnly = (Status.ok200, storeLinkedAfter)
    ∧ ¬ consistent storeLinkedAfter :=
  ⟨by decide, by decide, by decide⟩

/-- C5: on the three-waypoint sample track the upload path computes
d(w0,w1) + d(w0,w1) = 2000 m (the first leg twice, the last leg never)
where the claimed sum over consecutive pairs is 6000 m, so the stored
kilometre values are 2 versus 6; a two-waypoint track does agree (exactly
one pairwise distance). -/
theorem c5_distance_off_by_one :
    codeTrackDistance sampleDist sampleTrack = 2000
    ∧ specTrackDistance sampleDist sampleTrack = 6000
    ∧ storedDistanceKm (codeTrackDistance sampleDist sampleTrack) = 2
    ∧ storedDistanceKm (specTrackDistance sampleDist sampleTrack) = 6
    ∧ ∀ (d : ℚ × ℚ → ℚ × ℚ → ℚ) (a b : ℚ × ℚ), codeTrackDistance d [a, b] = d a b := by
  have h1 : codeTrackDistance sampleDist sampleTrack = 2000 := by
    simp [codeTrackDistance, sampleDist, sampleTrack, List.range_succ]
    norm_num
  have h2 : specTrackDistance sampleDist sampleTrack = 6000 := by
    simp [specTrackDistance, sampleDist, sampleTrack, List.range_succ]
    norm_num
  refine ⟨h1, h2, ?_, ?_, fun d a b => rfl⟩
  · rw [h1]
    norm_num [storedDistanceKm]
  · rw [h2]
    norm_num [storedDistanceKm]

/-- C6: a standard-role user who is a current runner of event 6 (their id
is the sole runner entry) but neither its owner nor an admin is REJECTED by
updateEvent with an authorization error and the event is unchanged —
line 1198 collects raw ObjectIDs while line 1206 looks for the requester's
id string, so the co-runner clause never fires. -/
theorem c6_corunner_cannot_update :
    eventB.runners.map RunnerDoc.user = [some reqCoRunner.id]
    ∧ reqCoRunner.role = Role.standard
    ∧ reqCoRunner.id ≠ eventB.owner
    ∧ updateEventOp storeRunnerEdit reqCoRunner 6 bodyNameB
        = (Status.auth401, storeRunnerEdit) :=
  ⟨by decide, rfl, by decide, by decide⟩

/-- C7: a permitted visibility-only runner update REPLACES the whole runner
entry: the stored entry afterwards has lost its user reference, its maps,
its comments and its course fields, instead of keeping every unsupplied
field — `$set: {'runners.$': fieldsToUpdateRunner}` writes the partial
object over the entire sub-document. -/
theorem c7_runner_replaced_not_updated :
    runnerFull.user = some 3
    ∧ runnerFull.maps = [mapDocOne]
    ∧ runnerFull.comments = [commentOne]
    ∧ runnerFull.courseTitle = some "H21"
    ∧ updateEventRunnerOp storeRunnerFull reqCoRunner 7 3 bodyVisOnly
        = (Status.ok200, replaceEvent storeRunnerFull 7 eventCAfter)
    ∧ eventCAfter.runners = [runnerReplaced]
    ∧ runnerReplaced.user = none
    ∧ runnerReplaced.maps = []
    ∧ runnerReplaced.comments = []
    ∧ runnerReplaced.courseTitle = none := by
  decide

/-- C8 counterexample: user 12 owns event 11 (which has no runner entries),
yet their delete request is rejected with an authorization error because
their role is guest — the code's permission clause demands the standard
role of an owner, so "the requester is the event's owner … succeeds" is
false as stated. -/
theorem c8_counterexample :
    reqGuestOwner.id = eventGuestOwned.owner
    ∧ eventGuestOwned.runners = []
    ∧ deleteEventOp storeGuestOwned reqGuestOwner 11 sampleClock
        = (Status.auth401, storeGuestOwned) :=
  ⟨rfl, rfl, by decide⟩

/-- C8 amended: a delete of an existing event is rejected (store unchanged)
whenever a runner of another user is attached or the requester is neither
an admin nor a standard-role owner; when the requester is an admin or the
event's standard-role owner and no other user's runner remains, it
succeeds as a soft delete — the document survives (collection size
unchanged) with active false, the name (and any present, non-empty ORIS id)
suffixed with the deletion timestamp tag, and every LinkedEvent's
`includes` reference to the event pulled. -/
theorem c8_amended (st : Store) (req : Viewer) (eid : Nat) (c : Clock)
    (ev : EventDoc) (hfind : findEvent st eid = some ev) :
    ((¬ deletePermitted req ev ∨ otherRunnerPresent req ev) →
        deleteEventOp st req eid c = (Status.auth401, st))
    ∧ (deletePermitted req ev → ¬ otherRunnerPresent req ev →
        (deleteEventOp st req eid c).1 = Status.ok200
        ∧ (deleteEventOp st req eid c).2.events.length = st.events.length
        ∧ (∀ l ∈ (deleteEventOp st req eid c).2.links, eid ∉ l.includes)
        ∧ findEvent (deleteEventOp st req eid c).2 eid = some (softDeletedDoc ev c)
        ∧ (softDeletedDoc ev c).active = false
        ∧ (softDeletedDoc ev c).name = ev.name ++ " " ++ deletedTag c
        ∧ (softDeletedDoc ev c).orisId = (match ev.orisId with
            | some o => if o == "" then none else some (o ++ " " ++ deletedTag c)
            | none => none)
        ∧ (softDeletedDoc ev c).runners = ev.runners) := by
  rw [deleteEventOp_found st req eid c ev hfind]
  constructor
  · intro hbad
    rw [if_neg]
    rw [Bool.and_eq_true, permB_iff, noOtherB_iff]
    tauto
  · intro hp ho
    have hcond :
        (((req.role == Role.admin) || (req.role == Role.standard && req.id == ev.owner))
          && ((ev.runners.length == 0)
              || ((ev.runners.filter (fun r => !(r.user == some req.id))).length == 0)))
          = true := by
      rw [Bool.and_eq_true, permB_iff, noOtherB_iff]
      exact ⟨hp, ho⟩
    rw [if_pos hcond]
    refine ⟨rfl, ?_, ?_, ?_, rfl, rfl, rfl, rfl⟩
    · simp [pullAllStore, replaceEvent]
    · intro l hl hmem
      simp only [pullAllStore, List.mem_map] at hl
      obtain ⟨l0, hl0, rfl⟩ := hl
      simp only [List.mem_filter] at hmem
      simp at hmem
    · show findEvent (replaceEvent st eid (softDeletedDoc ev c)) eid
          = some (softDeletedDoc ev c)
      exact findEvent_replace st eid ev (softDeletedDoc ev c) hfind rfl

/-- C8 amended, witness: a standard-role non-owner's delete of event 11 is
rejected with the store unchanged. -/
theorem c8_amended_witness :
    deleteEventOp storeGuestOwned reqStranger 11 sampleClock
      = (Status.auth401, storeGuestOwned) :=
  (c8_amended storeGuestOwned reqStranger 11 sampleClock eventGuestOwned
    (by decide)).1 (Or.inl (by decide))

/-- C9 counterexample: the store holds only an INACTIVE event on
("2020-06-01", "Spring Cup"), so no active event bears that pair, yet the
create request for exactly that pair is rejected — the duplicate check
`Event.findOne({date, name})` carries no active filter, refuting "rejects
exactly when an ACTIVE event with the pair exists". -/
theorem c9_counterexample :
    inactiveDup.active = false
    ∧ (∀ e ∈ storeInactive.events,
        ¬(e.active = true ∧ e.date = "2020-06-01" ∧ e.name = "Spring Cup"))
    ∧ createEventOp storeInactive reqStd bodySpringCup 30 = (Status.bad400, storeInactive) :=
  ⟨rfl, by decide, by decide⟩

/-- C9 amended: for a non-guest request supplying a non-empty name and a
date that passes the format test, createEvent rejects with nothing
persisted exactly when ANY stored event — active or soft-deleted — bears
the identical (date, name) string pair (exact match, no normalization), and
otherwise persists the new document; the invalid leap day "2019-02-29"
passes the format test. -/
theorem c9_amended (st : Store) (req : Viewer) (b : CreateEventBody) (fid : Nat)
    (d n : String) (hrole : req.role ≠ Role.guest) (hd : b.date = some d)
    (hn : b.name = some n) (hdn : d ≠ "") (hnn : n ≠ "") (hok : jsDateTest d = true) :
    ((∃ e ∈ st.events, e.date = d ∧ e.name = n) →
        createEventOp st req b fid = (Status.bad400, st))
    ∧ ((∀ e ∈ st.events, ¬(e.date = d ∧ e.name = n)) →
        createEventOp st req b fid = createEventAccepted st req b fid
        ∧ (createEventAccepted st req b fid).2.events
            = st.events ++ [createdEventDoc st req b fid])
    ∧ jsDateTest "2019-02-29" = true := by
  have h1 : (req.role == Role.guest) = false := beq_eq_false_iff_ne.mpr hrole
  have h2 : (d == "") = false := beq_eq_false_iff_ne.mpr hdn
  have h3 : (n == "") = false := beq_eq_false_iff_ne.mpr hnn
  have key : createEventOp st req b fid =
      if st.events.any (fun e => e.date == d && e.name == n) then (Status.bad400, st)
      else createEventAccepted st req b fid := by
    unfold createEventOp
    rw [hd, hn]
    simp [h1, h2, h3, hok]
  refine ⟨?_, ?_, by decide⟩
  · rintro ⟨e, he, hdate, hname⟩
    have hany : st.events.any (fun e => e.date == d && e.name == n) = true :=
      List.any_eq_true.mpr ⟨e, he, by simp [hdate, hname]⟩
    rw [key, if_pos hany]
  · intro hall
    have hany : ¬ (st.events.any (fun e => e.date == d && e.name == n) = true) := by
      rw [List.any_eq_true]
      rintro ⟨e, he, hmatch⟩
      rw [Bool.and_eq_true, beq_iff_eq, beq_iff_eq] at hmatch
      exact hall e he hmatch
    rw [key, if_neg hany]
    exact ⟨rfl, rfl⟩

/-- C9 amended, witness: the same name on a different date is accepted and
the new document is appended. -/
theorem c9_amended_witness :
    createEventOp storeInactive reqStd bodySpringCup2 31
        = createEventAccepted storeInactive reqStd bodySpringCup2 31
    ∧ (createEventAccepted storeInactive reqStd bodySpringCup2 31).2.events
        = storeInactive.events ++ [createdEventDoc storeInactive reqStd bodySpringCup2 31] :=
  ((c9_amended storeInactive reqStd bodySpringCup2 31 "2020-06-02" "Spring Cup"
      (by decide) rfl rfl (by decide) (by decide) (by decide)).2.1) (by decide)

/-- C10: a soft-deleted stored event (active = false) is invisible to every
read: getEvent's lookup — `findOne({_id, active: true})` — yields the 404
outcome whenever every stored event with the requested id is inactive, and
for any query filters and any regex-matching semantics the inactive event
is never among the documents getEventList returns, because the criteria
always conjoin `active: true` and the filter whitelists cannot name
`active`. The viewer plays no part in either database stage, so this holds
for every viewer including admins. -/
theorem c10_soft_deleted_invisible (st : Store) (eid : Nat)
    (sm : String → String → Bool) (q : ListQuery) (e : EventDoc)
    (_he : e ∈ st.events) (hin : e.active = false) :
    ((∀ x ∈ st.events, x.id = eid → x.active = false) →
        getEventLookup st eid = DetailLookup.notFound)
    ∧ e ∉ getEventListEvents st sm q := by
  constructor
  · intro hall
    unfold getEventLookup findOneActiveEvent
    rw [List.find?_eq_none.mpr ?_]
    · intro x hx
      simp only [Bool.and_eq_true, beq_iff_eq, not_and]
      intro hid hact
      rw [hall x hx hid] at hact
      cases hact
  · intro hmem
    have hq := (List.mem_filter.mp hmem).2
    unfold eventMatchesQuery at hq
    simp only [Bool.and_eq_true] at hq
    rw [hin] at hq
    exact Bool.false_ne_true hq.1.1.1.1

/-- C10 witness: the inactive event of the sample store is 404 on detail
lookup and absent from an unrestricted listing. -/
theorem c10_witness :
    getEventLookup storeInactive 20 = DetailLookup.notFound
    ∧ inactiveDup ∉ getEventListEvents storeInactive (fun _ _ => true) ⟨[], [], none, none⟩ := by
  have h := c10_soft_deleted_invisible storeInactive 20 (fun _ _ => true)
    ⟨[], [], none, none⟩ inactiveDup (by decide) rfl
  exact ⟨h.1 (by decide), h.2⟩

end OMap
